import Mathlib

/-!
Verification development for the RC Check repository (`src/main.py` and its
models).  The definitions below are a shallow embedding of the code:

* `get_config_data` embeds the raw-text configuration parser,
* `has_incomplete_configuration` embeds the completeness classifier
  (a substring scan for the quoted sentinel over a JSON dump),
* `is_match_configurations` embeds the change detector,
* `insert_previous_history_record` / `reconcile` embed the history backfill
  and the current-state/history reconciliation branch of `task`,
* `render_loop` / `task_model` embed the per-URL retry loop of `task`.

Timestamps (`datetime.now()` values) are modelled as natural numbers; a call
to the database that raises an uncaught exception (peewee `IntegrityError`
on a duplicate composite key, Python `IndexError` in the parser) is modelled
by an explicit error outcome, with all writes performed before the raise
retained.
-/

/-- Sentinel string marking a field the renderer did not expose
    (`CONST_INCOMPLETE` in `main.py`). -/
def CONST_INCOMPLETE : String := "Incomplete"

/-- `CONST_CREATE_ACTION` in `main.py`. -/
def CONST_CREATE_ACTION : String := "create"

/-- `CONST_UPDATE_ACTION` in `main.py`. -/
def CONST_UPDATE_ACTION : String := "update"

/-- One parsed vehicle configuration: the dict built by `get_config_data`,
with its seven keys `Vehicle`, `Motor/Battery`, `Price`, `Wheels`,
`Interior`, `Exterior`, `Packages` in insertion order. -/
structure ConfigData where
  vehicle : String
  motor_battery : String
  price : String
  wheels : String
  interior : String
  exterior : String
  packages : String
deriving DecidableEq

/-- A snapshot: the ordered list of configurations observed on one poll. -/
abbrev Snapshot := List ConfigData

/-! ## Parser (`get_config_data`) -/

/-- `[a-z]` of the regex `[a-z][A-Z0-9\$]`. -/
def isLowerAZ (c : Char) : Bool := 'a' ≤ c && c ≤ 'z'

/-- `[A-Z0-9\$]` of the regex `[a-z][A-Z0-9\$]`. -/
def isUpperDigitDollar (c : Char) : Bool :=
  ('A' ≤ c && c ≤ 'Z') || ('0' ≤ c && c ≤ '9') || c = '$'

/-- `re.search(r"[a-z][A-Z0-9\$]", config).start()`: index of the first
position where a lowercase letter is immediately followed by an uppercase
letter, digit or dollar sign; `none` when there is no match. -/
def findSplit : List Char → Option Nat
  | [] => none
  | [_] => none
  | a :: b :: rest =>
    if isLowerAZ a && isUpperDigitDollar b then some 0
    else (findSplit (b :: rest)).map (· + 1)

/-- `config[:position].endswith("hp")`. -/
def endsWithHp (l : List Char) : Bool :=
  match l.reverse with
  | p :: h :: _ => h = 'h' && p = 'p'
  | _ => false

/-- The `while match:` loop of `get_config_data`.  Arguments mirror the
Python locals `config`, `index`, `wheels_index`; returns the collected
split-off pieces, the final `wheels_index`, and the remaining `config`.
The fuel argument is initialised with the length of `config`; every
iteration consumes at least one character, so the fuel never runs out
before `findSplit` returns `none`. -/
def splitGo : Nat → List Char → Nat → Nat → List (List Char) × Nat × List Char
  | 0, config, _, wheels_index => ([], wheels_index, config)
  | fuel + 1, config, index, wheels_index =>
    match findSplit config with
    | none => ([], wheels_index, config)
    | some p =>
      let position := p + 1
      let index' := index + 1
      let wheels' := if endsWithHp (config.take position) then index' else wheels_index
      let r := splitGo fuel (config.drop position) index' wheels'
      ((config.take position) :: r.1, r.2)

/-- `\d` of `re.sub(r"(\d\+)More", ...)`.  The source regex, in Unicode
mode, also admits non-ASCII decimal digits; the inputs of interest are
ASCII. -/
def isDigit09 (c : Char) : Bool := '0' ≤ c && c ≤ '9'

/-- `re.sub(r"(\d\+)More", r"\g<1> additional Packages", config)`:
replace every non-overlapping occurrence of digit-`+More` by
digit-`+ additional Packages`, scanning left to right. -/
def subMore : List Char → List Char
  | [] => []
  | c :: '+' :: 'M' :: 'o' :: 'r' :: 'e' :: rest2 =>
    if isDigit09 c then c :: '+' :: (" additional Packages".data ++ subMore rest2)
    else c :: subMore ('+' :: 'M' :: 'o' :: 'r' :: 'e' :: rest2)
  | c :: rest => c :: subMore rest

/-- `", ".join(...)` on a list of strings. -/
def joinComma : List String → String
  | [] => ""
  | [x] => x
  | x :: xs => x ++ ", " ++ joinComma xs

/-- Outcome of `get_config_data`: `error` models an uncaught Python
`IndexError` (a `configs[i]` access beyond the end of the list),
`nullRes` models `return None`, `ok` a returned dict. -/
inductive ParseResult where
  | error
  | nullRes
  | ok (c : ConfigData)
deriving DecidableEq

/-- `get_config_data` from `main.py`: split the raw text at every
lowercase-to-uppercase/digit/dollar transition, remember the index of the
piece ending in `"hp"`, rewrite the trailing fragment, and assemble the
configuration dict.  Indexing `configs[1]`, `configs[2]`,
`configs[wheels_index+1]`, `configs[wheels_index+2]` can fall outside the
list, which in Python raises `IndexError`; this is the `error` outcome. -/
def get_config_data (config : String) : ParseResult :=
  let r := splitGo config.data.length config.data 0 0
  let wheels_index := r.2.1
  let configs : List String :=
    r.1.map String.mk ++ [String.mk (subMore r.2.2)]
  if configs.length = 0 then .nullRes
  else
    match configs.get? 0, configs.get? 1, configs.get? 2 with
    | some v, some m, some p =>
      if wheels_index > 0 then
        match configs.get? wheels_index, configs.get? (wheels_index + 1),
              configs.get? (wheels_index + 2) with
        | some w, some i, some e =>
          .ok ⟨v, m, p, w, i, e, joinComma (configs.drop (wheels_index + 3))⟩
        | _, _, _ => .error
      else
        .ok ⟨v, m, p, CONST_INCOMPLETE, CONST_INCOMPLETE, CONST_INCOMPLETE,
             joinComma [CONST_INCOMPLETE]⟩
    | _, _, _ => .error

/-! ## Completeness classifier (`has_incomplete_configuration`)

The source classifies a set of configurations as incomplete with
`f'"{CONST_INCOMPLETE}"' in json.dumps(configurations)`: a substring scan
for the quoted sentinel over the JSON serialisation.  The serialisation is
modelled after `json.dumps` with its defaults (`ensure_ascii=True`,
separators `", "` and `": "`). -/

/-- Lowercase hexadecimal digit, as used by `json.dumps` in
`\uXXXX` escapes. -/
def hexDigit (n : Nat) : Char :=
  if n < 10 then Char.ofNat (48 + n) else Char.ofNat (87 + n)

/-- A `\uXXXX` escape for a code unit `n < 0x10000`. -/
def uEscape (n : Nat) : List Char :=
  ['\\', 'u', hexDigit (n / 4096 % 16), hexDigit (n / 256 % 16),
   hexDigit (n / 16 % 16), hexDigit (n % 16)]

/-- How `json.dumps` (with `ensure_ascii=True`) renders one character of a
string: printable ASCII other than quote and backslash is kept, the
two-character escapes are used where JSON defines them, every other
character becomes `\uXXXX` escapes (a surrogate pair above `0xFFFF`). -/
def escapeChar (c : Char) : List Char :=
  if c = '"' then ['\\', '"']
  else if c = '\\' then ['\\', '\\']
  else if c = '\n' then ['\\', 'n']
  else if c = '\r' then ['\\', 'r']
  else if c = '\t' then ['\\', 't']
  else if c.toNat = 8 then ['\\', 'b']
  else if c.toNat = 12 then ['\\', 'f']
  else if 0x20 ≤ c.toNat ∧ c.toNat ≤ 0x7e then [c]
  else if c.toNat ≤ 0xffff then uEscape c.toNat
  else
    uEscape (0xd800 + (c.toNat - 0x10000) / 0x400) ++
    uEscape (0xdc00 + (c.toNat - 0x10000) % 0x400)

/-- `json.dumps` of a string: quoted, character-wise escaped. -/
def jsonDumpStr (s : String) : List Char :=
  '"' :: (s.data.map escapeChar).flatten ++ ['"']

/-- `sep.join(...)` on lists of characters (`", ".join` semantics). -/
def joinSep (sep : List Char) : List (List Char) → List Char
  | [] => []
  | [x] => x
  | x :: xs => x ++ sep ++ joinSep sep xs

/-- One `"key": value` item of a dumped configuration dict. -/
def jsonKV (k v : String) : List Char :=
  jsonDumpStr k ++ ':' :: ' ' :: jsonDumpStr v

/-- `json.dumps` of one configuration dict, keys in insertion order. -/
def jsonDumpConfig (c : ConfigData) : List Char :=
  '{' :: joinSep [',', ' ']
    [jsonKV "Vehicle" c.vehicle,
     jsonKV "Motor/Battery" c.motor_battery,
     jsonKV "Price" c.price,
     jsonKV "Wheels" c.wheels,
     jsonKV "Interior" c.interior,
     jsonKV "Exterior" c.exterior,
     jsonKV "Packages" c.packages] ++ ['}']

/-- `json.dumps` of a snapshot (a list of configuration dicts). -/
def jsonDumpSnapshot (s : Snapshot) : List Char :=
  '[' :: joinSep [',', ' '] (s.map jsonDumpConfig) ++ [']']

/-- Whether `needle` occurs at the very start of `hay`. -/
def leadMatch : List Char → List Char → Bool
  | [], _ => true
  | _ :: _, [] => false
  | a :: as, b :: bs => a == b && leadMatch as bs

/-- Python's `needle in hay` substring test. -/
def subScan (needle : List Char) (hay : List Char) : Bool :=
  leadMatch needle hay ||
    match hay with
    | [] => false
    | _ :: rest => subScan needle rest

/-- `f'"{CONST_INCOMPLETE}"'`: the quoted sentinel searched for. -/
def sentinelQuoted : List Char := '"' :: CONST_INCOMPLETE.data ++ ['"']

/-- `has_incomplete_configuration` from `main.py`:
`f'"{CONST_INCOMPLETE}"' in json.dumps(configurations)`. -/
def has_incomplete_configuration (configurations : Snapshot) : Bool :=
  subScan sentinelQuoted (jsonDumpSnapshot configurations)

/-! ## Change detector (`is_match_configurations`) -/

/-- `is_match_configurations` from `main.py`: length mismatch never
matches; a new snapshot with incomplete data against a complete current
snapshot is compared position-wise on the `Vehicle`, `Motor/Battery` and
`Price` fields only; otherwise the comparison is full structural
equality. -/
def is_match_configurations (new current : Snapshot) : Bool :=
  if new.length ≠ current.length then false
  else if has_incomplete_configuration new &&
          !(has_incomplete_configuration current) then
    (new.zip current).all fun p =>
      p.1.vehicle == p.2.vehicle &&
      p.1.motor_battery == p.2.motor_battery &&
      p.1.price == p.2.price
  else decide (new = current)

/-! ## Stores and reconciliation (`task`, store branch, and
`insert_previous_history_record`)

Timestamps produced by `datetime.now()` are modelled as naturals.  The
`rc_check` row selected for the polled URL is an `Option CheckState`; the
`rc_check_history` table is a list of `HistoryEntry` rows whose composite
primary key is `(url, modified_time)`.  A `RcCheckHistoryModel.create` on
an existing key raises peewee's `IntegrityError`; nothing in `main.py`
catches it, so the remaining statements of the reconciliation are skipped.
This is the `dbError` status below; writes performed before the raise are
retained. -/

/-- Wall-clock timestamps. -/
abbrev Time := Nat

/-- A row of `rc_check` (`RcCheckModel`). -/
structure CheckState where
  url : String
  url_description : String
  created_time : Time
  modified_time : Time
  last_checked_time : Time
  configurations : Snapshot
deriving DecidableEq

/-- A row of `rc_check_history` (`RcCheckHistoryModel`),
primary key `(url, modified_time)`. -/
structure HistoryEntry where
  url : String
  modified_time : Time
  modified_action : String
  url_description : String
  configurations : Snapshot
deriving DecidableEq

/-- `RcCheckHistoryModel.create(...)`: insert a history row, or fail
(`none`, modelling the uncaught `IntegrityError`) when a row with the same
`(url, modified_time)` composite key already exists. -/
def append_history (hist : List HistoryEntry) (e : HistoryEntry) :
    Option (List HistoryEntry) :=
  if hist.any fun h => h.url == e.url && h.modified_time == e.modified_time
  then none
  else some (hist ++ [e])

/-- `insert_previous_history_record` from `main.py`: if no history row
exists for `(existing_record.url, existing_record.modified_time)`, insert
one carrying the `configurations` argument — at `existing.created_time`
with action `create` when the record was never updated
(`modified_time == created_time`), otherwise at `current_time` with action
`update`.  Returns the updated table, or `none` when the insert itself
hits an existing key. -/
def insert_previous_history_record (url url_description : String)
    (configurations : Snapshot) (current_time : Time)
    (existing_record : CheckState) (hist : List HistoryEntry) :
    Option (List HistoryEntry) :=
  if hist.any fun h =>
      h.url == existing_record.url &&
      h.modified_time == existing_record.modified_time then
    some hist
  else
    let modified_time :=
      if existing_record.modified_time = existing_record.created_time
      then existing_record.created_time else current_time
    let modified_action :=
      if existing_record.modified_time = existing_record.created_time
      then CONST_CREATE_ACTION else CONST_UPDATE_ACTION
    append_history hist
      ⟨url, modified_time, modified_action, url_description, configurations⟩

/-- Decision outcome of one per-URL check.  `created`, `unchanged` and
`changed` are the reconciler's result codes (status 201 and the two
status-200 branches), `failed` is the render-failure event (status 500),
`dbError` an uncaught `IntegrityError` during reconciliation, `crash` an
uncaught `IndexError` while parsing an article. -/
inductive Status where
  | created
  | unchanged
  | changed
  | failed
  | dbError
  | crash
deriving DecidableEq

/-- Result of the store-reconciliation phase: the (possibly updated)
`rc_check` row for the URL, the (possibly extended) history table, and the
decision outcome. -/
structure RecResult where
  check : Option CheckState
  hist : List HistoryEntry
  status : Status
deriving DecidableEq

/-- The store branch of `task` in `main.py` (everything after a snapshot
has been obtained): create the record and a `create` history row when no
record exists; on a match update `last_checked_time` only and backfill; on
a mismatch backfill against the existing record, overwrite
`configurations`/`modified_time`/`last_checked_time`, and append an
`update` history row at the new timestamp.  `record` is the row selected
for `url`, `hist` the history table. -/
def reconcile (url url_description : String) (configurations : Snapshot)
    (current_time : Time) (record : Option CheckState)
    (hist : List HistoryEntry) : RecResult :=
  match record with
  | none =>
    let new_record : CheckState :=
      ⟨url, url_description, current_time, current_time, current_time,
       configurations⟩
    match append_history hist
        ⟨url, current_time, CONST_CREATE_ACTION, url_description,
         configurations⟩ with
    | none => ⟨some new_record, hist, .dbError⟩
    | some h => ⟨some new_record, h, .created⟩
  | some existing_record =>
    if is_match_configurations configurations
        existing_record.configurations then
      let existing1 := { existing_record with last_checked_time := current_time }
      match insert_previous_history_record url url_description configurations
          current_time existing1 hist with
      | none => ⟨some existing1, hist, .dbError⟩
      | some h => ⟨some existing1, h, .unchanged⟩
    else
      match insert_previous_history_record url url_description configurations
          current_time existing_record hist with
      | none => ⟨some existing_record, hist, .dbError⟩
      | some h1 =>
        let existing2 :=
          { existing_record with
              modified_time := current_time
              last_checked_time := current_time
              configurations := configurations }
        match append_history h1
            ⟨url, current_time, CONST_UPDATE_ACTION, url_description,
             configurations⟩ with
        | none => ⟨some existing2, h1, .dbError⟩
        | some h2 => ⟨some existing2, h2, .changed⟩


/-! ## Render-and-retry loop and full per-URL check (`task`)

The rendered page is abstracted to what the loop in `task` inspects: the
presence of the `"No exact matches"` text and the list of raw texts of the
`ShopVehicleLink` article elements.  `renderer n` is the page content
after `n` reloads. -/

/-- What one render of the page exposes to the loop. -/
structure Page where
  noExact : Bool
  articles : List String
deriving DecidableEq

/-- `configurations.append(get_config_data(element.text_content()))` over
all articles.  `none` models an uncaught `IndexError` raised while parsing
an article; the loop (and the whole task) stops there.  `get_config_data`
never returns `None` (`get_config_data_ne_nullRes` below), so a `None`
list element cannot arise. -/
def parse_articles : List String → Option Snapshot
  | [] => some []
  | a :: rest =>
    match get_config_data a with
    | .ok c => (parse_articles rest).map (c :: ·)
    | _ => none

/-- Outcome of the render loop of `task`. -/
inductive LoopOutcome where
  | crash
  | renderFailed
  | snapshot (s : Snapshot)
deriving DecidableEq

/-- The `while configurations is None and reload_counter < 3` loop of
`task`.  `configurations` is the loop variable of the same name,
`pageIdx` counts the reloads performed so far (selecting `renderer
pageIdx` as the current page), and `fuel = 3 - reload_counter`.  One
iteration: a `"No exact matches"` hit sets `configurations` to the empty
snapshot, articles (when present) replace it with their parses, and if
the result is still `None` or has incomplete data the page is reloaded
and the counter incremented.  Note that the `while` condition tests only
`configurations is None`, so a non-`None` snapshot ends the loop even
when it is incomplete. -/
def render_go (renderer : Nat → Page) (configurations : Option Snapshot)
    (pageIdx : Nat) : Nat → LoopOutcome
  | 0 =>
    match configurations with
    | none => .renderFailed
    | some s => .snapshot s
  | fuel + 1 =>
    match configurations with
    | some s => .snapshot s
    | none =>
      let page := renderer pageIdx
      let c1 : Option Snapshot := if page.noExact then some [] else none
      let c2 : Option Snapshot :=
        if page.articles.length > 0 then
          match parse_articles page.articles with
          | none => none
          | some s => some s
        else c1
      if page.articles.length > 0 && (parse_articles page.articles).isNone then
        .crash
      else
        match c2 with
        | none => render_go renderer none (pageIdx + 1) fuel
        | some s =>
          if has_incomplete_configuration s then
            render_go renderer (some s) (pageIdx + 1) fuel
          else .snapshot s

/-- The full render loop: `configurations = None`, `reload_counter = 0`. -/
def render_loop (renderer : Nat → Page) : LoopOutcome :=
  render_go renderer none 0 3

/-- One full per-URL check of `task`: render (with retries), then either
emit the render-failure event with no store writes, or reconcile the
snapshot into the stores. -/
def task_model (renderer : Nat → Page) (url url_description : String)
    (current_time : Time) (record : Option CheckState)
    (hist : List HistoryEntry) : RecResult :=
  match render_loop renderer with
  | .crash => ⟨record, hist, .crash⟩
  | .renderFailed => ⟨record, hist, .failed⟩
  | .snapshot configurations =>
    reconcile url url_description configurations current_time record hist

/-! ## Concrete data used by evaluation theorems -/

/-- A fully populated configuration (no sentinel anywhere). -/
def cfgA : ConfigData := ⟨"R1S", "Dual", "$74,000", "20in", "Black", "Blue", "Launch"⟩

/-- Like `cfgA` but with a different price. -/
def cfgB : ConfigData := ⟨"R1S", "Dual", "$75,000", "20in", "Black", "Blue", "Launch"⟩

/-- The parse of the raw article text `"abcDefGhi"`: two splits, no
`"hp"`-terminated piece, so fields 4-7 are the sentinel. -/
def cfgInc : ConfigData :=
  ⟨"abc", "Def", "Ghi", "Incomplete", "Incomplete", "Incomplete", "Incomplete"⟩

/-! ## Helper lemmas -/

/-- The change detector is reflexive: identical snapshots always match
(the tolerant branch is unreachable for a snapshot compared against
itself, and the full compare succeeds). -/
theorem is_match_self (s : Snapshot) : is_match_configurations s s = true := by
  unfold is_match_configurations
  rw [if_neg (by simp)]
  cases h : has_incomplete_configuration s <;> simp [h]

/-- A failed match implies the snapshots differ as values. -/
theorem ne_of_is_match_eq_false {a b : Snapshot}
    (h : is_match_configurations a b = false) : a ≠ b := by
  intro hab
  subst hab
  rw [is_match_self] at h
  exact absurd h (by simp)

/-- The "min compare" loop of `is_match_configurations`, characterised
position-wise: the fold over the zipped snapshots succeeds exactly when
every position agrees on `Vehicle`, `Motor/Battery` and `Price`. -/
theorem zipAll_triple_iff : ∀ (l1 l2 : Snapshot), l1.length = l2.length →
    (((l1.zip l2).all fun p =>
        p.1.vehicle == p.2.vehicle &&
        p.1.motor_battery == p.2.motor_battery &&
        p.1.price == p.2.price) = true ↔
      ∀ (i : Nat) (h1 : i < l1.length) (h2 : i < l2.length),
        (l1.get ⟨i, h1⟩).vehicle = (l2.get ⟨i, h2⟩).vehicle ∧
        (l1.get ⟨i, h1⟩).motor_battery = (l2.get ⟨i, h2⟩).motor_battery ∧
        (l1.get ⟨i, h1⟩).price = (l2.get ⟨i, h2⟩).price)
  | [], [], _ => by simp
  | [], _ :: _, h => by simp at h
  | _ :: _, [], h => by simp at h
  | a :: l1, b :: l2, h => by
    have hlen : l1.length = l2.length := by simpa using h
    have ih := zipAll_triple_iff l1 l2 hlen
    rw [List.zip_cons_cons, List.all_cons, Bool.and_eq_true, ih]
    constructor
    · rintro ⟨hh, htail⟩ i h1 h2
      match i with
      | 0 =>
        simp only [Bool.and_eq_true, beq_iff_eq] at hh
        exact ⟨hh.1.1, hh.1.2, hh.2⟩
      | i + 1 =>
        exact htail i (Nat.lt_of_succ_lt_succ h1) (Nat.lt_of_succ_lt_succ h2)
    · intro hpt
      refine ⟨?_, fun i h1 h2 => hpt (i + 1) (Nat.succ_lt_succ h1) (Nat.succ_lt_succ h2)⟩
      have h0 := hpt 0 (Nat.succ_pos _) (Nat.succ_pos _)
      simp only [Bool.and_eq_true, beq_iff_eq]
      exact ⟨⟨h0.1, h0.2.1⟩, h0.2.2⟩

/-- A prefix of the haystack makes `leadMatch` succeed. -/
theorem leadMatch_append_self : ∀ (n t : List Char), leadMatch n (n ++ t) = true
  | [], _ => rfl
  | a :: as, t => by simp [leadMatch, leadMatch_append_self as t]

/-- `subScan` finds every infix occurrence (soundness of the Python
`in` model for the direction the classifier lemmas need). -/
theorem subScan_of_infix {n h : List Char} (hx : n <:+: h) :
    subScan n h = true := by
  obtain ⟨s, t, rfl⟩ := hx
  induction s with
  | nil =>
    rw [List.nil_append]
    unfold subScan
    rw [leadMatch_append_self]
    simp
  | cons c s ih =>
    show subScan n (c :: (s ++ n ++ t)) = true
    unfold subScan
    show (leadMatch n (c :: (s ++ n ++ t)) || subScan n (s ++ n ++ t)) = true
    rw [ih]
    simp

/-- Every element of a joined list occurs inside the join. -/
theorem infix_joinSep_of_mem {sep : List Char} :
    ∀ {l : List (List Char)} {a : List Char}, a ∈ l → a <:+: joinSep sep l
  | [], _, h => absurd h (List.not_mem_nil _)
  | [x], a, h => by
    rw [List.mem_singleton] at h
    subst h
    exact List.infix_rfl
  | x :: y :: ys, a, h => by
    show a <:+: x ++ sep ++ joinSep sep (y :: ys)
    rcases List.mem_cons.mp h with rfl | h2
    · rw [List.append_assoc]
      exact (List.prefix_append a (sep ++ joinSep sep (y :: ys))).isInfix
    · exact (infix_joinSep_of_mem h2).trans
        (List.suffix_append (x ++ sep) (joinSep sep (y :: ys))).isInfix

/-- The quoted sentinel is exactly the JSON dump of the sentinel string. -/
theorem jsonDumpStr_sentinel : jsonDumpStr CONST_INCOMPLETE = sentinelQuoted := by
  decide

/-- The quoted sentinel occurs in a dumped `"key": value` item whose value
is the sentinel. -/
theorem sentinel_infix_jsonKV (k : String) :
    sentinelQuoted <:+: jsonKV k CONST_INCOMPLETE := by
  show sentinelQuoted <:+: jsonDumpStr k ++ ':' :: ' ' :: jsonDumpStr CONST_INCOMPLETE
  rw [jsonDumpStr_sentinel]
  refine List.IsSuffix.isInfix ?_
  have h1 : sentinelQuoted <:+ ':' :: ' ' :: sentinelQuoted := ⟨[':', ' '], rfl⟩
  exact h1.trans (List.suffix_append _ _)

/-- The quoted sentinel occurs in the dump of any configuration one of
whose last four fields is the sentinel. -/
theorem sentinel_infix_config {c : ConfigData}
    (hf : c.wheels = CONST_INCOMPLETE ∨ c.interior = CONST_INCOMPLETE ∨
          c.exterior = CONST_INCOMPLETE ∨ c.packages = CONST_INCOMPLETE) :
    sentinelQuoted <:+: jsonDumpConfig c := by
  have step : ∀ kv : List Char,
      kv ∈ [jsonKV "Vehicle" c.vehicle, jsonKV "Motor/Battery" c.motor_battery,
            jsonKV "Price" c.price, jsonKV "Wheels" c.wheels,
            jsonKV "Interior" c.interior, jsonKV "Exterior" c.exterior,
            jsonKV "Packages" c.packages] →
      sentinelQuoted <:+: kv → sentinelQuoted <:+: jsonDumpConfig c := by
    intro kv hmem hkv
    have h1 := hkv.trans (@infix_joinSep_of_mem [',', ' '] _ _ hmem)
    have h2 : joinSep [',', ' ']
        [jsonKV "Vehicle" c.vehicle, jsonKV "Motor/Battery" c.motor_battery,
         jsonKV "Price" c.price, jsonKV "Wheels" c.wheels,
         jsonKV "Interior" c.interior, jsonKV "Exterior" c.exterior,
         jsonKV "Packages" c.packages] <:+: jsonDumpConfig c :=
      ⟨['{'], ['}'], by simp [jsonDumpConfig]⟩
    exact h1.trans h2
  rcases hf with hw | hi | he | hp
  · exact step _ (by simp) (hw ▸ sentinel_infix_jsonKV "Wheels")
  · exact step _ (by simp) (hi ▸ sentinel_infix_jsonKV "Interior")
  · exact step _ (by simp) (he ▸ sentinel_infix_jsonKV "Exterior")
  · exact step _ (by simp) (hp ▸ sentinel_infix_jsonKV "Packages")

/-! ## Claims -/

/-- C5: the claim says `get_config_data` returns `null` exactly when zero
field splits are found, and never errors otherwise.  The code appends the
trailing fragment unconditionally, so the `len(configs) == 0` check is
dead and an input with no split reaches `configs[1]`, raising
`IndexError`.  This theorem evaluates the code at the failing input
`"xyz"` (no lowercase-to-uppercase/digit/dollar transition): the result is
the uncaught-exception outcome, not `null`. -/
theorem c5_unparseable_raises_index_error :
    get_config_data "xyz" = ParseResult.error ∧
    get_config_data "xyz" ≠ ParseResult.nullRes := by decide

/-- `get_config_data` can never return `None`: the list of pieces always
receives the unconditional trailing append, so its length is never zero.
(This justifies collapsing the `None`-element case in `parse_articles`.) -/
theorem get_config_data_ne_nullRes (s : String) :
    get_config_data s ≠ ParseResult.nullRes := by
  unfold get_config_data
  intro h
  rw [if_neg (by simp)] at h
  split at h
  · split at h
    · split at h <;> simp_all
    · simp_all
  · simp_all

/-- C6 counterexample: the claim's "iff" rule is false.  A configuration
whose `Vehicle` field is the sentinel but whose last four fields are all
ordinary strings is still classified incomplete, because the classifier
searches the JSON dump of the whole snapshot for the quoted sentinel. -/
theorem c6_counterexample :
    ¬ (has_incomplete_configuration [⟨"Incomplete", "a", "b", "c", "d", "e", "f"⟩] = true ↔
        ((⟨"Incomplete", "a", "b", "c", "d", "e", "f"⟩ : ConfigData).wheels = CONST_INCOMPLETE ∨
         (⟨"Incomplete", "a", "b", "c", "d", "e", "f"⟩ : ConfigData).interior = CONST_INCOMPLETE ∨
         (⟨"Incomplete", "a", "b", "c", "d", "e", "f"⟩ : ConfigData).exterior = CONST_INCOMPLETE ∨
         (⟨"Incomplete", "a", "b", "c", "d", "e", "f"⟩ : ConfigData).packages = CONST_INCOMPLETE)) := by
  decide

/-- C6 (amended): a configuration with the sentinel in any of its last
four fields is classified incomplete, and so is every snapshot containing
such a configuration; the converse direction of the claimed "iff" fails,
since the classifier is a substring scan for the quoted sentinel over the
JSON dump of the whole snapshot, so a sentinel in any other field (such
as `Vehicle`) also classifies the snapshot as incomplete. -/
theorem c6_last_four_sentinel_incomplete (s : Snapshot) (c : ConfigData)
    (hc : c ∈ s)
    (hf : c.wheels = CONST_INCOMPLETE ∨ c.interior = CONST_INCOMPLETE ∨
          c.exterior = CONST_INCOMPLETE ∨ c.packages = CONST_INCOMPLETE) :
    has_incomplete_configuration s = true := by
  unfold has_incomplete_configuration
  apply subScan_of_infix
  have h1 : sentinelQuoted <:+: jsonDumpConfig c := sentinel_infix_config hf
  have h2 : jsonDumpConfig c <:+: joinSep [',', ' '] (s.map jsonDumpConfig) :=
    infix_joinSep_of_mem (List.mem_map_of_mem _ hc)
  have h3 : joinSep [',', ' '] (s.map jsonDumpConfig) <:+: jsonDumpSnapshot s :=
    ⟨['['], [']'], by simp [jsonDumpSnapshot]⟩
  exact (h1.trans h2).trans h3

/-- Witness for `c6_last_four_sentinel_incomplete` at a concrete
configuration whose `Wheels` field is the sentinel. -/
theorem c6_last_four_sentinel_incomplete_witness :
    ((⟨"a", "b", "c", "Incomplete", "e", "f", "g"⟩ : ConfigData) ∈
        [(⟨"a", "b", "c", "Incomplete", "e", "f", "g"⟩ : ConfigData)] ∧
      (⟨"a", "b", "c", "Incomplete", "e", "f", "g"⟩ : ConfigData).wheels = CONST_INCOMPLETE) ∧
    has_incomplete_configuration [⟨"a", "b", "c", "Incomplete", "e", "f", "g"⟩] = true :=
  ⟨⟨by decide, by decide⟩,
    c6_last_four_sentinel_incomplete
      [⟨"a", "b", "c", "Incomplete", "e", "f", "g"⟩]
      ⟨"a", "b", "c", "Incomplete", "e", "f", "g"⟩
      (by decide) (Or.inl (by decide))⟩

/-- C7: for equal-length snapshots with `new` incomplete and `current`
complete, the detector matches exactly when every position agrees on the
`Vehicle`, `Motor/Battery` and `Price` fields; the remaining fields do not
enter the comparison in this case. -/
theorem c7_tolerant_compare (new current : Snapshot)
    (hlen : new.length = current.length)
    (hn : has_incomplete_configuration new = true)
    (hc : has_incomplete_configuration current = false) :
    is_match_configurations new current = true ↔
      ∀ (i : Nat) (h1 : i < new.length) (h2 : i < current.length),
        (new.get ⟨i, h1⟩).vehicle = (current.get ⟨i, h2⟩).vehicle ∧
        (new.get ⟨i, h1⟩).motor_battery = (current.get ⟨i, h2⟩).motor_battery ∧
        (new.get ⟨i, h1⟩).price = (current.get ⟨i, h2⟩).price := by
  unfold is_match_configurations
  rw [if_neg (not_not_intro hlen), hn, hc]
  simp only [Bool.not_false, Bool.and_true, if_true]
  exact zipAll_triple_iff new current hlen

/-- Witness for `c7_tolerant_compare`: an incomplete new snapshot against
a complete current one differing only in fields 4 and beyond. -/
theorem c7_tolerant_compare_witness :
    (([cfgInc] : Snapshot).length = ([cfgA] : Snapshot).length ∧
      has_incomplete_configuration [cfgInc] = true ∧
      has_incomplete_configuration [cfgA] = false) ∧
    (is_match_configurations [cfgInc] [cfgA] = true ↔
      ∀ (i : Nat) (h1 : i < ([cfgInc] : Snapshot).length)
        (h2 : i < ([cfgA] : Snapshot).length),
        (([cfgInc] : Snapshot).get ⟨i, h1⟩).vehicle =
          (([cfgA] : Snapshot).get ⟨i, h2⟩).vehicle ∧
        (([cfgInc] : Snapshot).get ⟨i, h1⟩).motor_battery =
          (([cfgA] : Snapshot).get ⟨i, h2⟩).motor_battery ∧
        (([cfgInc] : Snapshot).get ⟨i, h1⟩).price =
          (([cfgA] : Snapshot).get ⟨i, h2⟩).price) :=
  ⟨⟨rfl, by decide, by decide⟩,
    c7_tolerant_compare [cfgInc] [cfgA] rfl (by decide) (by decide)⟩

/-- C10: the change detector is reflexive — any snapshot matches itself,
so re-polling identical content is classified as unchanged. -/
theorem c10_match_reflexive (s : Snapshot) :
    is_match_configurations s s = true := is_match_self s

/-- C1: the claim says the backfilled history entry captures the outgoing
(old) stored state.  Evaluating the code on a record that was never
updated (`modified_time = created_time = 0`, stored snapshot `[cfgA]`,
empty history) reconciled against a changed snapshot `[cfgB]` at time 5:
the backfill inserts an entry at time 0 whose configurations are the NEW
snapshot `[cfgB]` (the `configurations` argument of
`insert_previous_history_record`), and the outgoing state `[cfgA]` appears
nowhere in the resulting history. -/
theorem c1_backfill_stores_new_snapshot :
    reconcile "u" "d" [cfgB] 5 (some ⟨"u", "d", 0, 0, 0, [cfgA]⟩) [] =
      ⟨some ⟨"u", "d", 0, 5, 5, [cfgB]⟩,
       [⟨"u", 0, CONST_CREATE_ACTION, "d", [cfgB]⟩,
        ⟨"u", 5, CONST_UPDATE_ACTION, "d", [cfgB]⟩],
       Status.changed⟩ ∧
    [cfgA] ∉ (reconcile "u" "d" [cfgB] 5
        (some ⟨"u", "d", 0, 0, 0, [cfgA]⟩) []).hist.map
        HistoryEntry.configurations ∧
    cfgA ≠ cfgB := by decide

/-- C2: the claim says reconciling the same matching snapshot twice
creates at most one history entry in total.  Evaluating the code on a
record updated before history tracking existed (`created_time = 0`,
`modified_time = 3`, empty history): each unchanged reconciliation
backfills a fresh entry keyed by the current poll time (5, then 7),
because the existence check looks for `modified_time = 3` while the
insert writes `current_time` — two entries after two polls. -/
theorem c2_backfill_not_idempotent :
    (reconcile "u" "d" [cfgA] 7
        (reconcile "u" "d" [cfgA] 5 (some ⟨"u", "d", 0, 3, 3, [cfgA]⟩) []).check
        (reconcile "u" "d" [cfgA] 5 (some ⟨"u", "d", 0, 3, 3, [cfgA]⟩) []).hist).hist =
      [⟨"u", 5, CONST_UPDATE_ACTION, "d", [cfgA]⟩,
       ⟨"u", 7, CONST_UPDATE_ACTION, "d", [cfgA]⟩] ∧
    (reconcile "u" "d" [cfgA] 5 (some ⟨"u", "d", 0, 3, 3, [cfgA]⟩) []).status =
      Status.unchanged ∧
    (reconcile "u" "d" [cfgA] 7
        (reconcile "u" "d" [cfgA] 5 (some ⟨"u", "d", 0, 3, 3, [cfgA]⟩) []).check
        (reconcile "u" "d" [cfgA] 5 (some ⟨"u", "d", 0, 3, 3, [cfgA]⟩) []).hist).status =
      Status.unchanged := by decide

/-- C3: the claim says a backfill for a previously-updated record inserts
the entry at `existing.modified_time` with action `update`.  Evaluating
the code on a record with `created_time = 0`, `modified_time = 3` and no
matching history at poll time 9: the inserted entry carries timestamp 9
(the `current_time`), not 3. -/
theorem c3_backfill_timestamp_is_current_time :
    insert_previous_history_record "u" "d" [cfgA] 9 ⟨"u", "d", 0, 3, 3, [cfgA]⟩ [] =
      some [⟨"u", 9, CONST_UPDATE_ACTION, "d", [cfgA]⟩] := by decide

/-- C9: the claim says a history append hitting an existing
`(url, modified_time)` key is recovered locally as an idempotent no-op.
Evaluating the code on a changed snapshot against a record with
`created_time = 0`, `modified_time = 3` and no history: the backfill
inserts an entry at the poll time 5, and the subsequent normal `update`
append targets the same `(u, 5)` key; nothing in `task` or
`insert_previous_history_record` catches the resulting `IntegrityError`,
so the reconciliation aborts instead of completing normally. -/
theorem c9_key_conflict_uncaught :
    (reconcile "u" "d" [cfgB] 5 (some ⟨"u", "d", 0, 3, 3, [cfgA]⟩) []).status =
      Status.dbError := by decide

/-- C4: the claim says a renderer that never yields a definite empty
result or a complete snapshot is retried 3 times and then produces a
`failed` event with no store writes.  Evaluating the code against a
renderer that always yields one article parsing to an incomplete
configuration: the `while` condition only tests `configurations is None`,
so the loop exits after the first extraction, the incomplete snapshot is
handed to the reconciler, and a `CheckState` plus a `create` history row
are written — a `created` event, not `failed`. -/
theorem c4_incomplete_snapshot_reaches_stores :
    task_model (fun _ => ⟨false, ["abcDefGhi"]⟩) "u" "d" 5 none [] =
      ⟨some ⟨"u", "d", 5, 5, 5, [cfgInc]⟩,
       [⟨"u", 5, CONST_CREATE_ACTION, "d", [cfgInc]⟩],
       Status.created⟩ ∧
    has_incomplete_configuration [cfgInc] = true := by decide

/-- C8: across every reconciliation of an existing record,
`created_time` is never modified, `last_checked_time` is set to the poll
time whenever the reconciliation completes (is not aborted by an uncaught
`IntegrityError`), and `modified_time` changes only when the stored
`configurations` change. -/
theorem c8_timestamp_invariants (url url_description : String)
    (configurations : Snapshot) (current_time : Time)
    (existing : CheckState) (hist : List HistoryEntry) (r : RecResult)
    (hr : reconcile url url_description configurations current_time
        (some existing) hist = r)
    (ns : CheckState) (hns : r.check = some ns) :
    ns.created_time = existing.created_time ∧
    (r.status ≠ Status.dbError → ns.last_checked_time = current_time) ∧
    (ns.modified_time ≠ existing.modified_time →
      ns.configurations ≠ existing.configurations) := by
  unfold reconcile at hr
  dsimp only at hr
  by_cases hm : is_match_configurations configurations
      existing.configurations = true
  · rw [if_pos hm] at hr
    rcases hins : insert_previous_history_record url url_description
        configurations current_time
        { existing with last_checked_time := current_time } hist with _ | h
    all_goals rw [hins] at hr; subst hr; dsimp only at hns
    all_goals rw [Option.some_inj] at hns; subst hns
    · exact ⟨rfl, fun habs => absurd rfl habs, fun habs => absurd rfl habs⟩
    · exact ⟨rfl, fun _ => rfl, fun habs => absurd rfl habs⟩
  · rw [if_neg hm] at hr
    have hne : configurations ≠ existing.configurations :=
      ne_of_is_match_eq_false (Bool.not_eq_true _ ▸ hm)
    rcases hins : insert_previous_history_record url url_description
        configurations current_time existing hist with _ | h1
    · rw [hins] at hr; subst hr; dsimp only at hns
      rw [Option.some_inj] at hns; subst hns
      exact ⟨rfl, fun habs => absurd rfl habs, fun habs => absurd rfl habs⟩
    · rw [hins] at hr
      dsimp only at hr
      rcases happ : append_history h1
          ⟨url, current_time, CONST_UPDATE_ACTION, url_description,
           configurations⟩ with _ | h2
      all_goals rw [happ] at hr; subst hr; dsimp only at hns
      all_goals rw [Option.some_inj] at hns; subst hns
      · exact ⟨rfl, fun _ => rfl, fun _ => hne⟩
      · exact ⟨rfl, fun _ => rfl, fun _ => hne⟩

/-- Witness for `c8_timestamp_invariants`: a concrete unchanged
reconciliation (empty snapshot against a record storing the empty
snapshot). -/
theorem c8_timestamp_invariants_witness :
    (reconcile "u" "d" [] 1 (some ⟨"u", "d", 0, 0, 0, []⟩) [] =
        ⟨some ⟨"u", "d", 0, 0, 1, []⟩,
         [⟨"u", 0, CONST_CREATE_ACTION, "d", []⟩], Status.unchanged⟩ ∧
      (⟨some ⟨"u", "d", 0, 0, 1, []⟩,
        [⟨"u", 0, CONST_CREATE_ACTION, "d", []⟩],
        Status.unchanged⟩ : RecResult).check = some ⟨"u", "d", 0, 0, 1, []⟩) ∧
    ((⟨"u", "d", 0, 0, 1, []⟩ : CheckState).created_time =
        (⟨"u", "d", 0, 0, 0, []⟩ : CheckState).created_time ∧
      ((⟨some ⟨"u", "d", 0, 0, 1, []⟩,
         [⟨"u", 0, CONST_CREATE_ACTION, "d", []⟩],
         Status.unchanged⟩ : RecResult).status ≠ Status.dbError →
        (⟨"u", "d", 0, 0, 1, []⟩ : CheckState).last_checked_time = 1) ∧
      ((⟨"u", "d", 0, 0, 1, []⟩ : CheckState).modified_time ≠
          (⟨"u", "d", 0, 0, 0, []⟩ : CheckState).modified_time →
        (⟨"u", "d", 0, 0, 1, []⟩ : CheckState).configurations ≠
          (⟨"u", "d", 0, 0, 0, []⟩ : CheckState).configurations)) :=
  ⟨⟨by decide, by decide⟩,
    c8_timestamp_invariants "u" "d" [] 1 ⟨"u", "d", 0, 0, 0, []⟩ []
      ⟨some ⟨"u", "d", 0, 0, 1, []⟩,
       [⟨"u", 0, CONST_CREATE_ACTION, "d", []⟩], Status.unchanged⟩
      (by decide) ⟨"u", "d", 0, 0, 1, []⟩ (by decide)⟩
